import Mathlib

/-!
Verification of the reposignal bot's command/cleanup core.

A shallow embedding of the bot's command grammar, context validators,
action dispatchers (maintainer classification and contributor feedback),
event-driven nudges, the cleanup scheduler options, and the serialized
log write, together with theorems checking the specification's claims.

External network calls (permission lookup, pull-request fetch, backend
mutating calls, comment posting) are modelled by environment records that
carry the call results and success flags; each handler is a pure function
from its environment and event payload to the list of side effects it
issues, in order.  An effect appears in the list when the corresponding
call is issued, whether or not it succeeds; a failed call aborts the rest
of the handler body, matching the source's try/catch structure.
-/

namespace Reposignal

/-! ## Command grammar

The source parses commands with JavaScript regexes such as
`/\/reposignal\s+difficulty\s+([1-5])/i` applied via `String.match`,
which returns the leftmost match.  We embed each regex as a
deterministic matcher over the character list, scanned left to right.
All patterns are a case-insensitive literal chain separated by runs of
whitespace, ending in a single-character class, so greedy matching with
no backtracking is exact.
-/

/-- JavaScript `\s` restricted to ASCII: space, tab, newline, carriage
return, vertical tab, form feed. -/
def isWS (c : Char) : Bool :=
  c = ' ' || c = '\t' || c = '\n' || c = '\r' || c = '\x0b' || c = '\x0c'

/-- Match a literal case-insensitively (the regexes carry the `i` flag);
returns the remaining input on success. -/
def litCI : List Char → List Char → Option (List Char)
  | [], rest => some rest
  | _ :: _, [] => none
  | p :: ps, c :: cs => if c.toLower = p.toLower then litCI ps cs else none

/-- Drop a (possibly empty) run of whitespace. -/
def dropWS : List Char → List Char
  | [] => []
  | c :: cs => if isWS c then dropWS cs else c :: cs

/-- Match `\s+`: at least one whitespace character, consumed greedily
(exact here, since every following pattern element is non-whitespace). -/
def wsPlus : List Char → Option (List Char)
  | [] => none
  | c :: cs => if isWS c then some (dropWS cs) else none

/-- Match the character class `[1-5]`, returning its numeric value. -/
def digit15 : List Char → Option (Nat × List Char)
  | [] => none
  | c :: cs => if '1' ≤ c ∧ c ≤ '5' then some (c.toNat - '0'.toNat, cs) else none

/-- Try a matcher at every position, leftmost first (JS `String.match`
semantics for a pattern without anchors). -/
def scanMatch (f : List Char → Option α) : List Char → Option α
  | [] => f []
  | c :: cs =>
    match f (c :: cs) with
    | some r => some r
    | none => scanMatch f cs

/-- Substring test with JavaScript `String.prototype.includes`
semantics (case-sensitive). -/
def isPrefOf : List Char → List Char → Bool
  | [], _ => true
  | _ :: _, [] => false
  | p :: ps, c :: cs => p = c && isPrefOf ps cs

/-- Predicate `hasSub pat cs`: true iff `pat` occurs as a contiguous substring of `cs`. -/
def hasSub (pat : List Char) : List Char → Bool
  | [] => pat.isEmpty
  | c :: cs => isPrefOf pat (c :: cs) || hasSub pat cs

/-- Embedding of `body.includes(pat)` from the source. -/
def jsIncludes (body pat : String) : Bool :=
  hasSub pat.data body.data

/-- Issue types accepted by the `type` command
(`src/types/index.ts`: `IssueType`). -/
inductive IssueType
  | docs | bug | feature | refactor | test | infra
deriving DecidableEq

/-- The lowercase keyword of each issue type, as it appears in the
regex alternation `(docs|bug|feature|refactor|test|infra)`. -/
def IssueType.word : IssueType → String
  | .docs => "docs"
  | .bug => "bug"
  | .feature => "feature"
  | .refactor => "refactor"
  | .test => "test"
  | .infra => "infra"

/-- The alternation branches, in the regex's order. -/
def issueTypeAlts : List IssueType :=
  [.docs, .bug, .feature, .refactor, .test, .infra]

/-- Try each alternation branch in order; on a hit the source lowercases
the matched text, which our typed result already captures. -/
def matchTypeAlt : List IssueType → List Char → Option IssueType
  | [], _ => none
  | t :: ts, cs =>
    match litCI t.word.data cs with
    | some _ => some t
    | none => matchTypeAlt ts cs

/-- Match `/reposignal\s+difficulty\s+([1-5])` at the current position. -/
def matchDifficultyAt (cs : List Char) : Option Nat := do
  let cs ← litCI "/reposignal".data cs
  let cs ← wsPlus cs
  let cs ← litCI "difficulty".data cs
  let cs ← wsPlus cs
  let (n, _) ← digit15 cs
  pure n

/-- Embeds `parseDifficultyCommand` (`src/commands/maintainer.ts`): regex
`/\/reposignal\s+difficulty\s+([1-5])/i`, capture parsed with
`parseInt`. -/
def parseDifficultyCommand (body : String) : Option Nat :=
  scanMatch matchDifficultyAt body.data

/-- Match `/reposignal\s+type\s+(docs|bug|feature|refactor|test|infra)`
at the current position. -/
def matchTypeAt (cs : List Char) : Option IssueType := do
  let cs ← litCI "/reposignal".data cs
  let cs ← wsPlus cs
  let cs ← litCI "type".data cs
  let cs ← wsPlus cs
  matchTypeAlt issueTypeAlts cs

/-- Embeds `parseTypeCommand` (`src/commands/maintainer.ts`). -/
def parseTypeCommand (body : String) : Option IssueType :=
  scanMatch matchTypeAt body.data

/-- Match `/reposignal\s+hide` at the current position. -/
def matchHideAt (cs : List Char) : Option Unit := do
  let cs ← litCI "/reposignal".data cs
  let cs ← wsPlus cs
  let _ ← litCI "hide".data cs
  pure ()

/-- Embeds `isHideCommand` (`src/commands/maintainer.ts`): regex test
`/\/reposignal\s+hide/i`. -/
def isHideCommand (body : String) : Bool :=
  (scanMatch matchHideAt body.data).isSome

/-- Match `/reposignal\s+rate\s+difficulty\s+([1-5])`. -/
def matchRateDifficultyAt (cs : List Char) : Option Nat := do
  let cs ← litCI "/reposignal".data cs
  let cs ← wsPlus cs
  let cs ← litCI "rate".data cs
  let cs ← wsPlus cs
  let cs ← litCI "difficulty".data cs
  let cs ← wsPlus cs
  let (n, _) ← digit15 cs
  pure n

/-- Embeds `parseDifficultyRating` (`src/commands/contributor.ts`). -/
def parseDifficultyRating (body : String) : Option Nat :=
  scanMatch matchRateDifficultyAt body.data

/-- Match `/reposignal\s+rate\s+responsiveness\s+([1-5])`. -/
def matchRateResponsivenessAt (cs : List Char) : Option Nat := do
  let cs ← litCI "/reposignal".data cs
  let cs ← wsPlus cs
  let cs ← litCI "rate".data cs
  let cs ← wsPlus cs
  let cs ← litCI "responsiveness".data cs
  let cs ← wsPlus cs
  let (n, _) ← digit15 cs
  pure n

/-- Embeds `parseResponsivenessRating` (`src/commands/contributor.ts`). -/
def parseResponsivenessRating (body : String) : Option Nat :=
  scanMatch matchRateResponsivenessAt body.data

/-! ## Logging data model

`src/types/index.ts` (`ActorType`, `EntityType`, `LogEntry`) and the
`Logger` service.  Free-form JSON context objects are modelled as
association lists of flat JSON values, which covers every context this
code constructs. -/

/-- Embeds `ActorType` from `src/types/index.ts`. -/
inductive ActorType
  | system | bot | maintainer | contributor
deriving DecidableEq

/-- Embeds `EntityType` from `src/types/index.ts`. -/
inductive EntityType
  | repo | issue | installation | feedback | comment
deriving DecidableEq

/-- Flat JSON values occurring in the log contexts this code builds. -/
inductive Json
  | jnull
  | jnum (n : Nat)
  | jstr (s : String)
deriving DecidableEq

/-- Embeds `LogEntry` from `src/types/index.ts`: the in-process record handed
to `backendAPI.writeLog`. -/
structure LogEntry where
  actorType : ActorType
  actorGithubId : Option Nat
  actorUsername : Option String
  action : String
  entityType : EntityType
  entityId : String
  context : Option (List (String × Json))
deriving DecidableEq

/-- Embeds `logger.logSystem` (logger service): system actor, no identity. -/
def logSystem (action : String) (entityType : EntityType) (entityId : String)
    (context : Option (List (String × Json))) : LogEntry :=
  { actorType := .system, actorGithubId := none, actorUsername := none,
    action := action, entityType := entityType, entityId := entityId,
    context := context }

/-- Embeds `logger.logBot` (logger service): bot actor, no identity. -/
def logBot (action : String) (entityType : EntityType) (entityId : String)
    (context : Option (List (String × Json))) : LogEntry :=
  { actorType := .bot, actorGithubId := none, actorUsername := none,
    action := action, entityType := entityType, entityId := entityId,
    context := context }

/-- Embeds `logger.logMaintainer` (logger service): maintainer actor with
identity. -/
def logMaintainer (githubId : Nat) (username : String) (action : String)
    (entityType : EntityType) (entityId : String)
    (context : Option (List (String × Json))) : LogEntry :=
  { actorType := .maintainer, actorGithubId := some githubId,
    actorUsername := some username, action := action,
    entityType := entityType, entityId := entityId, context := context }

/-- Embeds `logger.logContributor` (logger service): contributor actor, always
anonymous — both identity fields are hard-coded to `null`. -/
def logContributor (action : String) (entityType : EntityType) (entityId : String)
    (context : Option (List (String × Json))) : LogEntry :=
  { actorType := .contributor, actorGithubId := none, actorUsername := none,
    action := action, entityType := entityType, entityId := entityId,
    context := context }

/-- The serialized name of an entity type, as `JSON.stringify` would
emit it. -/
def EntityType.name : EntityType → String
  | .repo => "repo"
  | .issue => "issue"
  | .installation => "installation"
  | .feedback => "feedback"
  | .comment => "comment"

/-- A field value of the serialized log POST body: either a string or
the nested context object. -/
inductive BodyVal
  | s (v : String)
  | obj (fields : List (String × Json))
deriving DecidableEq

/-- Embeds `backendAPI.writeLog` (`src/services/backend-api.ts`): the JSON
object POSTed to `/bot/logs`, as key/value pairs in `JSON.stringify`
insertion order.  The source serializes only
`{action, entityType, entityId, context}`; when `log.context` is
`undefined`, `JSON.stringify` omits the key. -/
def writeLogBody (log : LogEntry) : List (String × BodyVal) :=
  [("action", .s log.action),
   ("entityType", .s log.entityType.name),
   ("entityId", .s log.entityId)] ++
  (match log.context with
   | none => []
   | some c => [("context", .obj c)])

/-! ## Side effects and handler environments

Each handler is embedded as a pure function returning the ordered list
of externally visible calls it issues.  Operational logging
(`console.log`, `context.log`) is not an effect, matching the spec's
scope. -/

/-- The externally visible calls a handler can issue, with the payload
fields the source passes. -/
inductive Effect
  | classifyIssue (githubRepoId githubIssueId : Nat)
      (difficulty : Option Nat) (issueType : Option IssueType)
      (hidden : Option Bool) (actorGithubId : Nat) (actorUsername : String)
  | submitFeedback (githubPrId githubRepoId : Nat)
      (difficultyRating responsivenessRating : Option Nat)
  | createComment (owner repo : String) (issueNumber : Nat) (body : String)
  | scheduleCleanup (owner repo : String) (commentId : Nat)
      (issueNumber : Nat) (installationId : Nat) (delayMs : Nat)
  | writeLog (entry : LogEntry)
  | deleteIssue (githubRepoId githubIssueId : Nat)
deriving DecidableEq

/-- Payload of an `issue_comment.created` webhook, restricted to the
fields the handlers read. -/
structure CommentEvent where
  body : String
  commentId : Nat
  issueNumber : Nat
  issueId : Nat
  repoId : Nat
  senderId : Nat
  senderLogin : String
  ownerLogin : String
  repoName : String
  installationId : Nat
deriving DecidableEq

/-- Environment of `handleMaintainerCommand`: the permission-lookup
result (`none` when the lookup throws), whether the classify call and
the confirmation post succeed, and the id GitHub assigns to the
confirmation comment. -/
structure MaintainerEnv where
  permissionResult : Option String
  classifySucceeds : Bool
  postSucceeds : Bool
  confirmationId : Nat
deriving DecidableEq

/-- Embeds `hasMaintainerPermission` (`src/commands/maintainer.ts`): a thrown
lookup yields `false`; otherwise
`['write', 'maintain', 'admin'].includes(permission)`. -/
def hasMaintainerPermission : Option String → Bool
  | none => false
  | some p => (["write", "maintain", "admin"] : List String).contains p

/-- The confirmation body built by `handleMaintainerCommand`:
`changes` entries pushed for each matched field, joined with `', '`. -/
def maintainerChanges (difficulty : Option Nat) (issueType : Option IssueType)
    (shouldHide : Bool) : List String :=
  (match difficulty with
   | some d => ["difficulty " ++ toString d]
   | none => []) ++
  (match issueType with
   | some t => ["type " ++ t.word]
   | none => []) ++
  (if shouldHide then ["hidden from discovery"] else [])

/-- The dispatch tail of `handleMaintainerCommand`, i.e. the body of
its `try` block once a command matched: the classify call, then (if it
succeeded) the confirmation post, then (if that succeeded) the two
cleanup schedulings at 60000 ms. -/
def maintainerDispatch (env : MaintainerEnv) (ev : CommentEvent) :
    List Effect :=
  Effect.classifyIssue ev.repoId ev.issueId
    (parseDifficultyCommand ev.body) (parseTypeCommand ev.body)
    (if isHideCommand ev.body then some true else none)
    ev.senderId ev.senderLogin ::
  (if env.classifySucceeds then
    Effect.createComment ev.ownerLogin ev.repoName ev.issueNumber
      ("✅ Issue updated: " ++ String.intercalate ", "
        (maintainerChanges (parseDifficultyCommand ev.body)
          (parseTypeCommand ev.body) (isHideCommand ev.body))) ::
    (if env.postSucceeds then
      [Effect.scheduleCleanup ev.ownerLogin ev.repoName ev.commentId
         ev.issueNumber ev.installationId 60000,
       Effect.scheduleCleanup ev.ownerLogin ev.repoName
         env.confirmationId ev.issueNumber ev.installationId 60000]
    else [])
  else [])

/-- Embeds `handleMaintainerCommand` (`src/commands/maintainer.ts`): the
ordered effects it issues.  A call that fails still appears (it was
issued), and the `catch` stops everything after it. -/
def handleMaintainerCommand (env : MaintainerEnv) (ev : CommentEvent) :
    List Effect :=
  if jsIncludes ev.body "/reposignal" then
    if hasMaintainerPermission env.permissionResult then
      if (parseDifficultyCommand ev.body).isSome ||
          (parseTypeCommand ev.body).isSome || isHideCommand ev.body then
        maintainerDispatch env ev
      else []
    else []
  else []

/-- The pull request fields read by `isValidFeedbackContext`:
platform id, merge state, and `pr.user?.id` (optional in the API
schema). -/
structure PullRequest where
  id : Nat
  merged : Bool
  authorId : Option Nat
deriving DecidableEq

/-- Environment of `handleContributorFeedback`: the result of
`pulls.get` (`none` when the fetch throws), success of the feedback,
log and confirmation-post calls, and the confirmation comment's id. -/
structure ContributorEnv where
  prFetch : Option PullRequest
  feedbackSucceeds : Bool
  logSucceeds : Bool
  postSucceeds : Bool
  confirmationId : Nat
deriving DecidableEq

/-- Embeds `isValidFeedbackContext` (`src/commands/contributor.ts`): valid
with the PR's platform id iff the fetch succeeded, the PR is merged and
its author id equals the commenter's id; any failure yields
`{valid: false}`. -/
def isValidFeedbackContext (prFetch : Option PullRequest)
    (commenterId : Nat) : Bool × Option Nat :=
  match prFetch with
  | none => (false, none)
  | some pr =>
    if pr.merged ∧ pr.authorId = some commenterId then (true, some pr.id)
    else (false, none)

/-- JavaScript falsiness of the optional numeric `prId` in
`if (!valid || !prId)`: `undefined` and `0` are falsy. -/
def jsFalsyOptNat : Option Nat → Bool
  | none => true
  | some n => n == 0

/-- Translation of an optional rating into the JSON context value the
contributor log entry carries. -/
def jsonOfRating : Option Nat → Json
  | none => .jnull
  | some n => .jnum n

/-- The dispatch tail of `handleContributorFeedback` for a validated
PR id: the feedback call, then (on success) the anonymous contributor
log, then the confirmation post, then the two cleanup schedulings at
60000 ms. -/
def contributorDispatch (env : ContributorEnv) (ev : CommentEvent)
    (prId : Nat) : List Effect :=
  Effect.submitFeedback prId ev.repoId
    (parseDifficultyRating ev.body)
    (parseResponsivenessRating ev.body) ::
  (if env.feedbackSucceeds then
    Effect.writeLog (logContributor "feedback_received" .repo
      ("repo#" ++ toString ev.repoId)
      (some [("difficulty_rating",
               jsonOfRating (parseDifficultyRating ev.body)),
             ("responsiveness_rating",
               jsonOfRating (parseResponsivenessRating ev.body))])) ::
    (if env.logSucceeds then
      Effect.createComment ev.ownerLogin ev.repoName ev.issueNumber
        "✅ Thank you for your anonymous feedback!" ::
      (if env.postSucceeds then
        [Effect.scheduleCleanup ev.ownerLogin ev.repoName
           ev.commentId ev.issueNumber ev.installationId 60000,
         Effect.scheduleCleanup ev.ownerLogin ev.repoName
           env.confirmationId ev.issueNumber ev.installationId 60000]
      else [])
    else [])
  else [])

/-- Embeds `handleContributorFeedback` (`src/commands/contributor.ts`): the
ordered effects it issues. -/
def handleContributorFeedback (env : ContributorEnv) (ev : CommentEvent) :
    List Effect :=
  if jsIncludes ev.body "/reposignal rate" then
    if !(isValidFeedbackContext env.prFetch ev.senderId).1 ||
        jsFalsyOptNat (isValidFeedbackContext env.prFetch ev.senderId).2 then []
    else
      match (isValidFeedbackContext env.prFetch ev.senderId).2 with
      | none => []
      | some prId =>
        if (parseDifficultyRating ev.body).isNone &&
            (parseResponsivenessRating ev.body).isNone then []
        else
          contributorDispatch env ev prId
  else []

/-- Embeds `registerCommentHandlers` (`src/events/comment.ts`): the routing of
an inbound `issue_comment.created` event.  A body containing
`/reposignal rate` goes to the contributor handler, any other body
containing `/reposignal` to the maintainer handler. -/
def routeComment (menv : MaintainerEnv) (cenv : ContributorEnv)
    (ev : CommentEvent) : List Effect :=
  if jsIncludes ev.body "/reposignal" then
    if jsIncludes ev.body "/reposignal rate" then
      handleContributorFeedback cenv ev
    else
      handleMaintainerCommand menv ev
  else []

/-! ## Nudge event handlers -/

/-- Environment shared by the nudge handlers: success of the nudge
post and the log call, and the id GitHub assigns to the nudge
comment. -/
structure NudgeEnv where
  postSucceeds : Bool
  logSucceeds : Bool
  nudgeCommentId : Nat
deriving DecidableEq

/-- Payload of `issues.opened`, restricted to the fields read. -/
structure IssueOpenedEvent where
  issueNumber : Nat
  issueId : Nat
  ownerLogin : String
  repoName : String
  installationId : Nat
deriving DecidableEq

/-- The nudge text posted on `issues.opened`. -/
def issueNudgeBody : String :=
  "👋 Thanks for opening this issue! Maintainers can classify it using:\n\n`/reposignal difficulty <1-5>`\n`/reposignal type <docs|bug|feature|refactor|test|infra>`\n\nOr hide it from discovery: `/reposignal hide`"

/-- The `issues.opened` handler (issue event module): posts the nudge,
logs it with the bot actor, and schedules cleanup of the nudge comment
at a 300000 ms delay. -/
def issuesOpened (env : NudgeEnv) (ev : IssueOpenedEvent) : List Effect :=
  Effect.createComment ev.ownerLogin ev.repoName ev.issueNumber
    issueNudgeBody ::
  (if env.postSucceeds then
    Effect.writeLog (logBot "issue_nudge_posted" .issue
      ("issue#" ++ toString ev.issueId)
      (some [("issueNumber", .jnum ev.issueNumber)])) ::
    (if env.logSucceeds then
      [Effect.scheduleCleanup ev.ownerLogin ev.repoName env.nudgeCommentId
         ev.issueNumber ev.installationId 300000]
    else [])
  else [])

/-- Payload of `pull_request.closed`, restricted to the fields read.
`linkedIssueNumbers` stands for the issue numbers extracted from the PR
body by the `(close[sd]?|fix(e[sd])?|resolve[sd]?)\s+#(\d+)` match in
the delete-issue block; the extraction itself is environment data
here since no claim depends on it. -/
structure PullRequestClosedEvent where
  prNumber : Nat
  merged : Bool
  repoId : Nat
  ownerLogin : String
  repoName : String
  installationId : Nat
  headRepoExists : Bool
  linkedIssueNumbers : List Nat
deriving DecidableEq

/-- The feedback-nudge text posted on a merged `pull_request.closed`. -/
def feedbackNudgeBody : String :=
  "🎉 Thanks for your contribution!\n\nHelp us improve by sharing your experience:\n\n`/reposignal rate difficulty <1-5>`\n`/reposignal rate responsiveness <1-5>`\n\nYour feedback is anonymous and helps future contributors."

/-- The delete-issue tail block of the `pull_request.closed` handler:
for each linked issue (when the head repo exists), a backend delete and
a bot-actor log entry. -/
def deleteLinkedIssues (ev : PullRequestClosedEvent) : List Effect :=
  if ev.headRepoExists then
    ev.linkedIssueNumbers.flatMap (fun n =>
      [Effect.deleteIssue ev.repoId n,
       Effect.writeLog (logBot "issue_deleted" .issue
         ("issue#" ++ toString n)
         (some [("reason", .jstr "pr_merged"),
                ("prNumber", .jnum ev.prNumber),
                ("repoId", .jnum ev.repoId)]))])
  else []

/-- The `pull_request.closed` handler (`src/events/pull-request.ts`):
on a merged PR, posts the feedback nudge, logs it, schedules cleanup of
the nudge comment at a 3600000 ms delay, then runs the delete-issue
block. -/
def pullRequestClosed (env : NudgeEnv) (ev : PullRequestClosedEvent) :
    List Effect :=
  if ev.merged then
    Effect.createComment ev.ownerLogin ev.repoName ev.prNumber
      feedbackNudgeBody ::
    (if env.postSucceeds then
      Effect.writeLog (logBot "feedback_prompted" .repo
        ("repo#" ++ toString ev.repoId)
        (some [("prNumber", .jnum ev.prNumber)])) ::
      (if env.logSucceeds then
        Effect.scheduleCleanup ev.ownerLogin ev.repoName env.nudgeCommentId
          ev.prNumber ev.installationId 3600000 ::
        deleteLinkedIssues ev
      else [])
    else [])
  else []

/-! ## Cleanup scheduler options and worker retry machine -/

/-- The BullMQ job options attached by `scheduleCleanup`
(`src/queues/cleanup.ts`): `{delay: delayMs, attempts: 3,
backoff: {type: 'exponential', delay: 5000}}`. -/
structure JobOpts where
  delay : Nat
  attempts : Nat
  backoffBase : Nat
deriving DecidableEq

/-- The options `scheduleCleanup` attaches for a given caller delay. -/
def cleanupJobOpts (delayMs : Nat) : JobOpts :=
  { delay := delayMs, attempts := 3, backoffBase := 5000 }

/-- Phase of one cleanup job inside the worker pool. -/
inductive JobPhase
  | running (attemptsMade : Nat)
  | retrying (attemptsMade : Nat) (backoffMs : Nat)
  | completed (attemptsMade : Nat)
  | failed (attemptsMade : Nat)
deriving DecidableEq

/-- Modelled from the spec: the exponential backoff of the worker pool
(the queue engine is an external library, not in src), §4.5: "base
5 seconds, doubling per attempt" — after the k-th failed attempt the
delay is `base * 2 ^ (k - 1)`. -/
def backoffDelay (base attemptsMade : Nat) : Nat :=
  base * 2 ^ (attemptsMade - 1)

/-- Modelled from the spec: one transition of a cleanup job whose
deletion attempt always fails (the worker body rethrows on failure),
§4.5: on failure with attempt count < `attempts`, go to Retrying with
the exponential backoff; once the count reaches `attempts`, go to
Failed terminally. -/
def stepAlwaysFail (opts : JobOpts) : JobPhase → JobPhase
  | .running made =>
    if made + 1 < opts.attempts then
      .retrying (made + 1) (backoffDelay opts.backoffBase (made + 1))
    else
      .failed (made + 1)
  | .retrying made _ => .running made
  | .completed m => .completed m
  | .failed m => .failed m

/-- The phases an always-failing job passes through in its first `n`
transitions, starting from its first execution. -/
def runPhases (opts : JobOpts) (n : Nat) : List JobPhase :=
  (List.range n).map (fun k => (stepAlwaysFail opts)^[k] (.running 0))

/-- The backoff delay recorded by a phase, if any. -/
def phaseDelay : JobPhase → List Nat
  | .retrying _ b => [b]
  | _ => []

/-- The backoff delays between attempts seen in the first `n`
transitions of an always-failing job. -/
def delaysSeen (opts : JobOpts) (n : Nat) : List Nat :=
  (runPhases opts n).flatMap phaseDelay

/-- Whether a phase is an execution of the deletion attempt. -/
def isExecution : JobPhase → Bool
  | .running _ => true
  | _ => false

/-! ## Effect classifiers used by the claims -/

/-- The external state-mutating backend calls of a dispatch. -/
def isMutatingCall : Effect → Bool
  | .classifyIssue .. => true
  | .submitFeedback .. => true
  | _ => false

/-- A classification call. -/
def isClassifyCall : Effect → Bool
  | .classifyIssue .. => true
  | _ => false

/-- A comment posting. -/
def isCommentPost : Effect → Bool
  | .createComment .. => true
  | _ => false

/-- A cleanup scheduling. -/
def isCleanupSched : Effect → Bool
  | .scheduleCleanup .. => true
  | _ => false

/-- The `(commentId, delayMs)` pairs of the cleanup jobs scheduled in a
trace, in order. -/
def cleanupsOf (tr : List Effect) : List (Nat × Nat) :=
  tr.flatMap (fun e =>
    match e with
    | .scheduleCleanup _ _ cid _ _ d => [(cid, d)]
    | _ => [])

/-- Number of comments posted in a trace. -/
def postCount (tr : List Effect) : Nat :=
  (tr.filter isCommentPost).length

/-- Whether an effect is one of the three dispatch side-effect kinds
whose relative order the spec fixes. -/
def dispatchKind (e : Effect) : Bool :=
  isMutatingCall e || isCommentPost e || isCleanupSched e

/-- The stage of a dispatch effect in the spec's order: mutating call,
then confirmation post, then cleanup scheduling. -/
def effectStage (e : Effect) : Nat :=
  if isMutatingCall e then 0
  else if isCommentPost e then 1
  else if isCleanupSched e then 2
  else 3

/-! ## Structural lemmas about the handlers -/

theorem hasMaintainerPermission_iff (r : Option String) :
    hasMaintainerPermission r = true ↔
      ∃ p, r = some p ∧ (p = "write" ∨ p = "maintain" ∨ p = "admin") := by
  cases r with
  | none => simp [hasMaintainerPermission]
  | some p =>
    have hc : (["write", "maintain", "admin"] : List String).contains p = true ↔
        (p = "write" ∨ p = "maintain" ∨ p = "admin") := by
      simp [List.contains, List.elem]
      rcases h : p == "write" with _ | _ <;>
        rcases h2 : p == "maintain" with _ | _ <;>
        rcases h3 : p == "admin" with _ | _ <;>
        simp_all [beq_iff_eq]
    simp only [hasMaintainerPermission, hc, Option.some.injEq]
    constructor
    · intro h
      exact ⟨p, rfl, h⟩
    · rintro ⟨q, rfl, h⟩
      exact h

/-- Either the maintainer handler stops silently, or the permission
gate passed, a command matched, and the trace is the dispatch tail. -/
theorem maintainer_cases (env : MaintainerEnv) (ev : CommentEvent) :
    handleMaintainerCommand env ev = [] ∨
    (hasMaintainerPermission env.permissionResult = true ∧
     ((parseDifficultyCommand ev.body).isSome ∨
      (parseTypeCommand ev.body).isSome ∨ isHideCommand ev.body = true) ∧
     handleMaintainerCommand env ev = maintainerDispatch env ev) := by
  unfold handleMaintainerCommand
  by_cases h1 : jsIncludes ev.body "/reposignal"
  · by_cases h2 : hasMaintainerPermission env.permissionResult
    · by_cases h3 : ((parseDifficultyCommand ev.body).isSome ||
          (parseTypeCommand ev.body).isSome || isHideCommand ev.body) = true
      · right
        refine ⟨h2, ?_, by simp [h1, h2, h3]⟩
        simpa [Bool.or_eq_true, Option.isSome_iff_exists, or_assoc] using h3
      · left
        simp [h1, h2, h3]
    · left
      simp [h1, h2]
  · left
    simp [h1]

/-- Either the contributor handler stops silently, or the fetched PR is
merged with the commenter as author, its id is nonzero, a rating
matched, and the trace is the dispatch tail for the PR's id. -/
theorem contributor_cases (env : ContributorEnv) (ev : CommentEvent) :
    handleContributorFeedback env ev = [] ∨
    (∃ pr, env.prFetch = some pr ∧ pr.merged = true ∧
      pr.authorId = some ev.senderId ∧ pr.id ≠ 0 ∧
      ((parseDifficultyRating ev.body).isSome ∨
       (parseResponsivenessRating ev.body).isSome) ∧
      handleContributorFeedback env ev = contributorDispatch env ev pr.id) := by
  unfold handleContributorFeedback
  by_cases h1 : jsIncludes ev.body "/reposignal rate"
  · cases hpr : env.prFetch with
    | none => left; simp [h1, isValidFeedbackContext, hpr, jsFalsyOptNat]
    | some pr =>
      by_cases hv : pr.merged = true ∧ pr.authorId = some ev.senderId
      · have hctx : isValidFeedbackContext (some pr) ev.senderId =
            (true, some pr.id) := by
          simp [isValidFeedbackContext, hv.1, hv.2]
        by_cases hz : pr.id = 0
        · left
          simp [h1, hpr, hctx, jsFalsyOptNat, hz]
        · by_cases hr : ((parseDifficultyRating ev.body).isNone &&
              (parseResponsivenessRating ev.body).isNone) = true
          · left
            simp [h1, hpr, hctx, jsFalsyOptNat, hz, hr]
          · right
            refine ⟨pr, rfl, hv.1, hv.2, hz, ?_, ?_⟩
            · rcases hd : parseDifficultyRating ev.body with _ | d
              · rcases hre : parseResponsivenessRating ev.body with _ | r
                · exact absurd (by simp [hd, hre]) hr
                · right
                  simp [hre]
              · left
                simp [hd]
            · simp [h1, hpr, hctx, jsFalsyOptNat, hz, hr]
      · have hctx : isValidFeedbackContext (some pr) ev.senderId =
            (false, none) := by
          simp only [isValidFeedbackContext]
          rw [if_neg hv]
        left
        simp [h1, hpr, hctx, jsFalsyOptNat]
  · left
    simp [h1]

/-- Every effect of the contributor dispatch tail is one of its five
explicit calls. -/
theorem mem_contributorDispatch {env : ContributorEnv} {ev : CommentEvent}
    {prId : Nat} {e : Effect} (h : e ∈ contributorDispatch env ev prId) :
    e = Effect.submitFeedback prId ev.repoId (parseDifficultyRating ev.body)
          (parseResponsivenessRating ev.body) ∨
    e = Effect.writeLog (logContributor "feedback_received" .repo
          ("repo#" ++ toString ev.repoId)
          (some [("difficulty_rating",
                   jsonOfRating (parseDifficultyRating ev.body)),
                 ("responsiveness_rating",
                   jsonOfRating (parseResponsivenessRating ev.body))])) ∨
    e = Effect.createComment ev.ownerLogin ev.repoName ev.issueNumber
          "✅ Thank you for your anonymous feedback!" ∨
    e = Effect.scheduleCleanup ev.ownerLogin ev.repoName ev.commentId
          ev.issueNumber ev.installationId 60000 ∨
    e = Effect.scheduleCleanup ev.ownerLogin ev.repoName env.confirmationId
          ev.issueNumber ev.installationId 60000 := by
  cases hf : env.feedbackSucceeds <;> cases hl : env.logSucceeds <;>
    cases hp : env.postSucceeds <;>
    simp [contributorDispatch, hf, hl, hp] at h <;> tauto

/-! ## Substring monotonicity (for the comment router) -/

theorem isPrefOf_append (p q cs : List Char)
    (h : isPrefOf (p ++ q) cs = true) : isPrefOf p cs = true := by
  induction p generalizing cs with
  | nil => rfl
  | cons a ps ih =>
    cases cs with
    | nil => simp [isPrefOf] at h
    | cons c cs' =>
      simp only [List.cons_append, isPrefOf, Bool.and_eq_true] at h ⊢
      exact ⟨h.1, ih cs' h.2⟩

theorem hasSub_append (p q : List Char) :
    ∀ cs, hasSub (p ++ q) cs = true → hasSub p cs = true := by
  intro cs
  induction cs with
  | nil =>
    simp only [hasSub, List.isEmpty_iff, List.append_eq_nil]
    rintro ⟨hp, _⟩
    exact hp
  | cons c cs' ih =>
    simp only [hasSub, Bool.or_eq_true]
    rintro (h | h)
    · exact Or.inl (isPrefOf_append _ _ _ h)
    · exact Or.inr (ih h)

/-- A body containing the rate trigger also contains the bare trigger. -/
theorem jsIncludes_rate_mono (body : String)
    (h : jsIncludes body "/reposignal rate" = true) :
    jsIncludes body "/reposignal" = true := by
  have hsplit : ("/reposignal rate").data =
      "/reposignal".data ++ " rate".data := rfl
  unfold jsIncludes at h ⊢
  rw [hsplit] at h
  exact hasSub_append _ _ _ h

/-! ## Orbit of an always-failing cleanup job -/

theorem cleanup_orbit_add_five (d : Nat) :
    ∀ m, (stepAlwaysFail (cleanupJobOpts d))^[5 + m]
      (JobPhase.running 0) = JobPhase.failed 3 := by
  intro m
  induction m with
  | zero => rfl
  | succ m ih =>
    have hstep : 5 + (m + 1) = (5 + m) + 1 := rfl
    rw [hstep, Function.iterate_succ_apply', ih]
    rfl

theorem cleanup_orbit_failed (d n : Nat) (h : 5 ≤ n) :
    (stepAlwaysFail (cleanupJobOpts d))^[n]
      (JobPhase.running 0) = JobPhase.failed 3 := by
  obtain ⟨k, hk⟩ := Nat.le.dest h
  rw [← hk]
  exact cleanup_orbit_add_five d k

theorem delaysSeen_succ (opts : JobOpts) (n : Nat) :
    delaysSeen opts (n + 1) = delaysSeen opts n ++
      phaseDelay ((stepAlwaysFail opts)^[n] (JobPhase.running 0)) := by
  simp [delaysSeen, runPhases, List.range_succ]

theorem cleanup_delays_add_four (d : Nat) :
    ∀ m, delaysSeen (cleanupJobOpts d) (4 + m) = [5000, 10000] := by
  intro m
  induction m with
  | zero => rfl
  | succ m ih =>
    have hstep : 4 + (m + 1) = (4 + m) + 1 := rfl
    rw [hstep, delaysSeen_succ, ih]
    cases m with
    | zero => rfl
    | succ k =>
      have h5 : 4 + (k + 1) = 5 + k := by omega
      rw [h5, cleanup_orbit_add_five]
      rfl

/-- The delete-issue tail of the `pull_request.closed` handler never
schedules any cleanup. -/
theorem cleanupsOf_deleteLinkedIssues (ev : PullRequestClosedEvent) :
    cleanupsOf (deleteLinkedIssues ev) = [] := by
  unfold deleteLinkedIssues
  cases hh : ev.headRepoExists with
  | false => simp [cleanupsOf]
  | true =>
    simp only [if_true]
    generalize ev.linkedIssueNumbers = ls
    induction ls with
    | nil => rfl
    | cons n ns ih =>
      simp only [List.flatMap_cons, cleanupsOf, List.flatMap_append] at ih ⊢
      simpa using ih

/-! ## Claim theorems -/

/-- C6: the claim that any numeric argument outside [1,5] is a
non-match fails on the code: the regexes bound the captured digit with
the class `[1-5]` but never require a boundary after it, so
`difficulty 12` matches with its first digit captured, yielding a
difficulty-1 command rather than no command.  Arguments whose first
digit is out of class (`0`, `6`) are indeed non-matches. -/
theorem parse_difficulty_twelve_matches :
    parseDifficultyCommand "/reposignal difficulty 12" = some 1 ∧
    parseDifficultyRating "/reposignal rate difficulty 12" = some 1 ∧
    parseDifficultyCommand "/reposignal difficulty 6" = none ∧
    parseDifficultyCommand "/reposignal difficulty 0" = none := by
  exact ⟨by decide, by decide, by decide, by decide⟩

/-- C7: the claim that every audit-log write carries the actor role
fails on the code: the body `writeLog` serializes to `/bot/logs` has
exactly the keys action, entityType, entityId and (when the entry has
a context) context — the actor role and identity fields of the
`LogEntry` are dropped at the wire. -/
theorem writeLogBody_omits_actor (log : LogEntry) :
    ((writeLogBody log).map Prod.fst = ["action", "entityType", "entityId"] ∨
     (writeLogBody log).map Prod.fst =
       ["action", "entityType", "entityId", "context"]) ∧
    "actorType" ∉ (writeLogBody log).map Prod.fst ∧
    "actorGithubId" ∉ (writeLogBody log).map Prod.fst ∧
    "actorUsername" ∉ (writeLogBody log).map Prod.fst := by
  cases h : log.context with
  | none =>
    have hkeys : (writeLogBody log).map Prod.fst =
        ["action", "entityType", "entityId"] := by
      simp [writeLogBody, h]
    exact ⟨Or.inl hkeys, by rw [hkeys]; decide, by rw [hkeys]; decide,
      by rw [hkeys]; decide⟩
  | some c =>
    have hkeys : (writeLogBody log).map Prod.fst =
        ["action", "entityType", "entityId", "context"] := by
      simp [writeLogBody, h]
    exact ⟨Or.inr hkeys, by rw [hkeys]; decide, by rw [hkeys]; decide,
      by rw [hkeys]; decide⟩

/-- C2 counterexample: with the options `scheduleCleanup` sets
(3 attempts, exponential backoff from a 5000 ms base), an
always-failing job sees backoff delays 5000 and 10000 ms only, and
its state is then permanently Failed — the claimed delay sequence
5 s, 10 s, 20 s does not occur (a 20 s delay could only precede a
4th attempt, which never happens). -/
theorem cleanup_backoff_delays_counterexample :
    delaysSeen (cleanupJobOpts 60000) 8 = [5000, 10000] ∧
    stepAlwaysFail (cleanupJobOpts 60000) (JobPhase.failed 3) =
      JobPhase.failed 3 ∧
    delaysSeen (cleanupJobOpts 60000) 8 ≠ [5000, 10000, 20000] := by
  exact ⟨by decide, rfl, by decide⟩

/-- C2 amended: for every cleanup job whose deletion attempt always
fails, the job reaches the terminal Failed state after exactly 3
attempts, with exponential backoff delays of 5 s and 10 s between
attempts (doubling from a 5 s base), and is never attempted a 4th
time (no run state ever has more than 2 prior attempts). -/
theorem cleanup_retry_exhaustion (d n m : Nat) :
    (5 ≤ n → (stepAlwaysFail (cleanupJobOpts d))^[n] (JobPhase.running 0) =
      JobPhase.failed 3) ∧
    ((stepAlwaysFail (cleanupJobOpts d))^[n] (JobPhase.running 0) =
      JobPhase.running m → m ≤ 2) ∧
    (4 ≤ n → delaysSeen (cleanupJobOpts d) n = [5000, 10000]) := by
  refine ⟨cleanup_orbit_failed d n, ?_, ?_⟩
  · intro h
    by_cases h5 : 5 ≤ n
    · rw [cleanup_orbit_failed d n h5] at h
      exact JobPhase.noConfusion h
    · have hlt : n < 5 := by omega
      interval_cases n
      · have h' : JobPhase.running 0 = JobPhase.running m := h
        injection h' with h''
        omega
      · have h' : JobPhase.retrying 1 5000 = JobPhase.running m := h
        exact JobPhase.noConfusion h'
      · have h' : JobPhase.running 1 = JobPhase.running m := h
        injection h' with h''
        omega
      · have h' : JobPhase.retrying 2 10000 = JobPhase.running m := h
        exact JobPhase.noConfusion h'
      · have h' : JobPhase.running 2 = JobPhase.running m := h
        injection h' with h''
        omega
  · intro h4
    obtain ⟨k, hk⟩ := Nat.le.dest h4
    rw [← hk]
    exact cleanup_delays_add_four d k

/-- C2 amended, witness: at 5 transitions the job is terminally Failed
with 3 attempts made; a run phase with 2 prior attempts is the last
execution; after 4 transitions the recorded delays are 5000 and
10000 ms. -/
theorem cleanup_retry_exhaustion_witness :
    (stepAlwaysFail (cleanupJobOpts 60000))^[5] (JobPhase.running 0) =
      JobPhase.failed 3 ∧
    2 ≤ 2 ∧
    delaysSeen (cleanupJobOpts 60000) 4 = [5000, 10000] :=
  ⟨(cleanup_retry_exhaustion 60000 5 0).1 (by decide),
   (cleanup_retry_exhaustion 60000 4 2).2.1 (by decide),
   (cleanup_retry_exhaustion 60000 4 0).2.2 (by decide)⟩

/-- C4: a maintainer command dispatches only when the commenting
actor's permission resolves to write, maintain or admin; a failed
lookup or any other level yields a silent stop — the handler issues no
effect at all (no classification call, no comment). -/
theorem maintainer_permission_gate (env : MaintainerEnv) (ev : CommentEvent) :
    ((env.permissionResult = none ∨
       ∃ p, env.permissionResult = some p ∧
         ¬(p = "write" ∨ p = "maintain" ∨ p = "admin")) →
      handleMaintainerCommand env ev = []) ∧
    (∀ e ∈ handleMaintainerCommand env ev,
      ∃ p, env.permissionResult = some p ∧
        (p = "write" ∨ p = "maintain" ∨ p = "admin")) := by
  constructor
  · intro h
    have hp : hasMaintainerPermission env.permissionResult = false := by
      cases hb : hasMaintainerPermission env.permissionResult with
      | false => rfl
      | true =>
        exfalso
        obtain ⟨q, hq, hmem⟩ := (hasMaintainerPermission_iff _).1 hb
        rcases h with h | ⟨p, hp', hnp⟩
        · rw [h] at hq
          exact Option.noConfusion hq
        · rw [hp'] at hq
          injection hq with hq'
          subst hq'
          exact hnp hmem
    unfold handleMaintainerCommand
    simp [hp]
  · intro e he
    rcases maintainer_cases env ev with hnil | ⟨hp, _, _⟩
    · rw [hnil] at he
      exact absurd he (List.not_mem_nil e)
    · exact (hasMaintainerPermission_iff _).1 hp

/-- C4, witness: a failed permission lookup silences the command, and
in a dispatched trace every effect implies a permitted level. -/
theorem maintainer_permission_gate_witness :
    handleMaintainerCommand
      { permissionResult := none, classifySucceeds := true,
        postSucceeds := true, confirmationId := 500 }
      { body := "/reposignal hide", commentId := 42, issueNumber := 7,
        issueId := 70, repoId := 10, senderId := 5, senderLogin := "alice",
        ownerLogin := "o", repoName := "r", installationId := 99 } = [] ∧
    ∃ p, (some "write" : Option String) = some p ∧
      (p = "write" ∨ p = "maintain" ∨ p = "admin") :=
  ⟨(maintainer_permission_gate
      { permissionResult := none, classifySucceeds := true,
        postSucceeds := true, confirmationId := 500 }
      { body := "/reposignal hide", commentId := 42, issueNumber := 7,
        issueId := 70, repoId := 10, senderId := 5, senderLogin := "alice",
        ownerLogin := "o", repoName := "r", installationId := 99 }).1
    (Or.inl rfl),
   (maintainer_permission_gate
      { permissionResult := some "write", classifySucceeds := true,
        postSucceeds := true, confirmationId := 500 }
      { body := "/reposignal hide", commentId := 42, issueNumber := 7,
        issueId := 70, repoId := 10, senderId := 5, senderLogin := "alice",
        ownerLogin := "o", repoName := "r", installationId := 99 }).2
    (Effect.classifyIssue 10 70 none none (some true) 5 "alice")
    (by decide)⟩

/-- C3: the contributor feedback call happens only when the PR fetch
succeeded, the PR is merged, and the commenter is its author — any
failure, the fetch throwing included, makes the handler issue no
effect at all; and whenever a feedback call is issued, its bound
entity is the fetched PR's platform id. -/
theorem contributor_validation_gate (env : ContributorEnv) (ev : CommentEvent) :
    ((env.prFetch = none ∨
       ∃ pr, env.prFetch = some pr ∧
         (pr.merged = false ∨ pr.authorId ≠ some ev.senderId)) →
      handleContributorFeedback env ev = []) ∧
    (∀ pid rid dr rr,
      Effect.submitFeedback pid rid dr rr ∈ handleContributorFeedback env ev →
      ∃ pr, env.prFetch = some pr ∧ pr.merged = true ∧
        pr.authorId = some ev.senderId ∧ pid = pr.id) := by
  constructor
  · intro h
    rcases contributor_cases env ev with hnil | ⟨pr, hpr, hm, ha, _, _, _⟩
    · exact hnil
    · exfalso
      rcases h with h | ⟨pr', hpr', hbad⟩
      · rw [h] at hpr
        exact Option.noConfusion hpr
      · rw [hpr'] at hpr
        injection hpr with h'
        subst h'
        rcases hbad with hb | hb
        · rw [hm] at hb
          exact Bool.noConfusion hb
        · exact hb ha
  · intro pid rid dr rr hmem
    rcases contributor_cases env ev with hnil | ⟨pr, hpr, hm, ha, _, _, htr⟩
    · rw [hnil] at hmem
      exact absurd hmem (List.not_mem_nil _)
    · rw [htr] at hmem
      rcases mem_contributorDispatch hmem with h | h | h | h | h
      · injection h with h1 h2 h3 h4
        exact ⟨pr, hpr, hm, ha, h1⟩
      · exact Effect.noConfusion h
      · exact Effect.noConfusion h
      · exact Effect.noConfusion h
      · exact Effect.noConfusion h

/-- C3, witness: an unmerged PR silences the command; on a merged PR
authored by the commenter, the issued feedback call is bound to the
PR's platform id (77), not to the thread's issue number (7). -/
theorem contributor_validation_gate_witness :
    handleContributorFeedback
      { prFetch := some { id := 77, merged := false, authorId := some 5 },
        feedbackSucceeds := true, logSucceeds := true, postSucceeds := true,
        confirmationId := 900 }
      { body := "/reposignal rate difficulty 4", commentId := 21,
        issueNumber := 7, issueId := 70, repoId := 10, senderId := 5,
        senderLogin := "alice", ownerLogin := "o", repoName := "r",
        installationId := 99 } = [] ∧
    ∃ pr, (some { id := 77, merged := true, authorId := some 5 } :
        Option PullRequest) = some pr ∧ pr.merged = true ∧
      pr.authorId = some 5 ∧ 77 = pr.id :=
  ⟨(contributor_validation_gate
      { prFetch := some { id := 77, merged := false, authorId := some 5 },
        feedbackSucceeds := true, logSucceeds := true, postSucceeds := true,
        confirmationId := 900 }
      { body := "/reposignal rate difficulty 4", commentId := 21,
        issueNumber := 7, issueId := 70, repoId := 10, senderId := 5,
        senderLogin := "alice", ownerLogin := "o", repoName := "r",
        installationId := 99 }).1
    (Or.inr ⟨{ id := 77, merged := false, authorId := some 5 }, rfl,
      Or.inl rfl⟩),
   (contributor_validation_gate
      { prFetch := some { id := 77, merged := true, authorId := some 5 },
        feedbackSucceeds := true, logSucceeds := true, postSucceeds := true,
        confirmationId := 900 }
      { body := "/reposignal rate difficulty 4", commentId := 21,
        issueNumber := 7, issueId := 70, repoId := 10, senderId := 5,
        senderLogin := "alice", ownerLogin := "o", repoName := "r",
        installationId := 99 }).2
    77 10 (some 4) none (by decide)⟩

/-- C8: a contributor-role log entry carries no identity, by
construction — `logContributor` hard-codes both identity fields to
null, and every log entry the contributor dispatcher ever emits is a
contributor entry with both identity fields null. -/
theorem contributor_log_is_anonymous :
    (∀ (a : String) (et : EntityType) (ei : String)
        (c : Option (List (String × Json))),
      (logContributor a et ei c).actorGithubId = none ∧
      (logContributor a et ei c).actorUsername = none) ∧
    (∀ (env : ContributorEnv) (ev : CommentEvent) (entry : LogEntry),
      Effect.writeLog entry ∈ handleContributorFeedback env ev →
      entry.actorType = ActorType.contributor ∧
      entry.actorGithubId = none ∧ entry.actorUsername = none) := by
  constructor
  · intro a et ei c
    exact ⟨rfl, rfl⟩
  · intro env ev entry hmem
    rcases contributor_cases env ev with hnil | ⟨pr, _, _, _, _, _, htr⟩
    · rw [hnil] at hmem
      exact absurd hmem (List.not_mem_nil _)
    · rw [htr] at hmem
      rcases mem_contributorDispatch hmem with h | h | h | h | h
      · exact Effect.noConfusion h
      · injection h with h1
        subst h1
        exact ⟨rfl, rfl, rfl⟩
      · exact Effect.noConfusion h
      · exact Effect.noConfusion h
      · exact Effect.noConfusion h

/-- C8, witness: the log entry actually emitted by a successful
contributor dispatch has the contributor role and null identities. -/
theorem contributor_log_is_anonymous_witness :
    (logContributor "feedback_received" EntityType.repo "repo#10"
        (some [("difficulty_rating", Json.jnum 4),
               ("responsiveness_rating", Json.jnull)])).actorGithubId =
      none ∧
    (logContributor "feedback_received" EntityType.repo "repo#10"
        (some [("difficulty_rating", Json.jnum 4),
               ("responsiveness_rating", Json.jnull)])).actorUsername =
      none ∧
    (logContributor "feedback_received" EntityType.repo "repo#10"
        (some [("difficulty_rating", Json.jnum 4),
               ("responsiveness_rating", Json.jnull)])).actorType =
      ActorType.contributor :=
  ⟨(contributor_log_is_anonymous.1 "feedback_received" EntityType.repo
      "repo#10" (some [("difficulty_rating", Json.jnum 4),
                       ("responsiveness_rating", Json.jnull)])).1,
   (contributor_log_is_anonymous.1 "feedback_received" EntityType.repo
      "repo#10" (some [("difficulty_rating", Json.jnum 4),
                       ("responsiveness_rating", Json.jnull)])).2,
   (contributor_log_is_anonymous.2
      { prFetch := some { id := 77, merged := true, authorId := some 5 },
        feedbackSucceeds := true, logSucceeds := true, postSucceeds := true,
        confirmationId := 900 }
      { body := "/reposignal rate difficulty 4", commentId := 21,
        issueNumber := 7, issueId := 70, repoId := 10, senderId := 5,
        senderLogin := "alice", ownerLogin := "o", repoName := "r",
        installationId := 99 }
      (logContributor "feedback_received" EntityType.repo "repo#10"
        (some [("difficulty_rating", Json.jnum 4),
               ("responsiveness_rating", Json.jnull)]))
      (by decide)).1⟩

/-- C9: the issue-opened nudge schedules exactly one cleanup, of its
own comment, at a 300000 ms delay; the merge-feedback nudge schedules
exactly one cleanup, of its own comment, at a 3600000 ms delay — and
no other delay or target ever appears in either handler's trace. -/
theorem nudge_cleanup_delays (env : NudgeEnv) (ev1 : IssueOpenedEvent)
    (ev2 : PullRequestClosedEvent) :
    (env.postSucceeds = true → env.logSucceeds = true →
      cleanupsOf (issuesOpened env ev1) = [(env.nudgeCommentId, 300000)]) ∧
    (∀ cd : Nat × Nat, cd ∈ cleanupsOf (issuesOpened env ev1) →
      cd = (env.nudgeCommentId, 300000)) ∧
    (ev2.merged = true → env.postSucceeds = true → env.logSucceeds = true →
      cleanupsOf (pullRequestClosed env ev2) =
        [(env.nudgeCommentId, 3600000)]) ∧
    (∀ cd : Nat × Nat, cd ∈ cleanupsOf (pullRequestClosed env ev2) →
      cd = (env.nudgeCommentId, 3600000)) := by
  have hdel := cleanupsOf_deleteLinkedIssues ev2
  refine ⟨?_, ?_, ?_, ?_⟩
  · intro hp hl
    simp [issuesOpened, hp, hl, cleanupsOf]
  · intro cd hcd
    cases hp : env.postSucceeds <;> cases hl : env.logSucceeds <;>
      simp [issuesOpened, hp, hl, cleanupsOf] at hcd
    simp [hcd]
  · intro hm hp hl
    simp only [pullRequestClosed, hm, hp, hl, if_true]
    simp only [cleanupsOf, List.flatMap_cons] at hdel ⊢
    simp [hdel]
  · intro cd hcd
    cases hm : ev2.merged <;> cases hp : env.postSucceeds <;>
      cases hl : env.logSucceeds <;>
      simp only [pullRequestClosed, hm, hp, hl, if_true, if_false,
        Bool.false_eq_true, cleanupsOf, List.flatMap_cons,
        List.flatMap_nil] at hcd <;>
      first
      | exact absurd hcd (List.not_mem_nil _)
      | (simp only [cleanupsOf] at hdel
         simp only [hdel, List.append_nil, List.mem_singleton,
           List.cons_append, List.nil_append, List.mem_cons,
           List.not_mem_nil, or_false] at hcd
         exact hcd)

/-- C9, witness: concrete nudge traces schedule their own comment's
cleanup at 300000 ms (issue opened) and 3600000 ms (merged PR). -/
theorem nudge_cleanup_delays_witness :
    cleanupsOf (issuesOpened
      { postSucceeds := true, logSucceeds := true, nudgeCommentId := 314 }
      { issueNumber := 7, issueId := 70, ownerLogin := "o", repoName := "r",
        installationId := 99 }) = [(314, 300000)] ∧
    cleanupsOf (pullRequestClosed
      { postSucceeds := true, logSucceeds := true, nudgeCommentId := 315 }
      { prNumber := 8, merged := true, repoId := 10, ownerLogin := "o",
        repoName := "r", installationId := 99, headRepoExists := true,
        linkedIssueNumbers := [3] }) = [(315, 3600000)] :=
  ⟨(nudge_cleanup_delays
      { postSucceeds := true, logSucceeds := true, nudgeCommentId := 314 }
      { issueNumber := 7, issueId := 70, ownerLogin := "o", repoName := "r",
        installationId := 99 }
      { prNumber := 8, merged := true, repoId := 10, ownerLogin := "o",
        repoName := "r", installationId := 99, headRepoExists := true,
        linkedIssueNumbers := [3] }).1 rfl rfl,
   (nudge_cleanup_delays
      { postSucceeds := true, logSucceeds := true, nudgeCommentId := 315 }
      { issueNumber := 7, issueId := 70, ownerLogin := "o", repoName := "r",
        installationId := 99 }
      { prNumber := 8, merged := true, repoId := 10, ownerLogin := "o",
        repoName := "r", installationId := 99, headRepoExists := true,
        linkedIssueNumbers := [3] }).2.2.1 rfl rfl rfl⟩

/-- C10: a comment whose body contains `/reposignal rate` is routed to
the contributor handler only; the routed trace contains no
classification call, and any comment it posts is the contributor
confirmation — never a maintainer confirmation. -/
theorem rate_routing_excludes_maintainer (menv : MaintainerEnv)
    (cenv : ContributorEnv) (ev : CommentEvent)
    (h : jsIncludes ev.body "/reposignal rate" = true) :
    routeComment menv cenv ev = handleContributorFeedback cenv ev ∧
    (∀ e ∈ routeComment menv cenv ev, isClassifyCall e = false) ∧
    (∀ o r n b, Effect.createComment o r n b ∈ routeComment menv cenv ev →
      b = "✅ Thank you for your anonymous feedback!") := by
  have hin : jsIncludes ev.body "/reposignal" = true :=
    jsIncludes_rate_mono ev.body h
  have hroute : routeComment menv cenv ev = handleContributorFeedback cenv ev := by
    simp [routeComment, hin, h]
  refine ⟨hroute, ?_, ?_⟩
  · intro e he
    rw [hroute] at he
    rcases contributor_cases cenv ev with hnil | ⟨pr, _, _, _, _, _, htr⟩
    · rw [hnil] at he
      exact absurd he (List.not_mem_nil _)
    · rw [htr] at he
      rcases mem_contributorDispatch he with h' | h' | h' | h' | h' <;>
        subst h' <;> rfl
  · intro o r n b hb
    rw [hroute] at hb
    rcases contributor_cases cenv ev with hnil | ⟨pr, _, _, _, _, _, htr⟩
    · rw [hnil] at hb
      exact absurd hb (List.not_mem_nil _)
    · rw [htr] at hb
      rcases mem_contributorDispatch hb with h' | h' | h' | h' | h'
      · exact Effect.noConfusion h'
      · exact Effect.noConfusion h'
      · simp only [Effect.createComment.injEq] at h'
        exact h'.2.2.2
      · exact Effect.noConfusion h'
      · exact Effect.noConfusion h'

/-- C10, witness: a comment carrying both a rate command and a
maintainer `difficulty` command routes to the contributor handler. -/
theorem rate_routing_excludes_maintainer_witness :
    routeComment
      { permissionResult := some "admin", classifySucceeds := true,
        postSucceeds := true, confirmationId := 500 }
      { prFetch := some { id := 77, merged := true, authorId := some 5 },
        feedbackSucceeds := true, logSucceeds := true, postSucceeds := true,
        confirmationId := 900 }
      { body := "/reposignal difficulty 2 /reposignal rate difficulty 4",
        commentId := 21, issueNumber := 7, issueId := 70, repoId := 10,
        senderId := 5, senderLogin := "alice", ownerLogin := "o",
        repoName := "r", installationId := 99 } =
      handleContributorFeedback
        { prFetch := some { id := 77, merged := true, authorId := some 5 },
          feedbackSucceeds := true, logSucceeds := true, postSucceeds := true,
          confirmationId := 900 }
        { body := "/reposignal difficulty 2 /reposignal rate difficulty 4",
          commentId := 21, issueNumber := 7, issueId := 70, repoId := 10,
          senderId := 5, senderLogin := "alice", ownerLogin := "o",
          repoName := "r", installationId := 99 } :=
  (rate_routing_excludes_maintainer
    { permissionResult := some "admin", classifySucceeds := true,
      postSucceeds := true, confirmationId := 500 }
    { prFetch := some { id := 77, merged := true, authorId := some 5 },
      feedbackSucceeds := true, logSucceeds := true, postSucceeds := true,
      confirmationId := 900 }
    { body := "/reposignal difficulty 2 /reposignal rate difficulty 4",
      commentId := 21, issueNumber := 7, issueId := 70, repoId := 10,
      senderId := 5, senderLogin := "alice", ownerLogin := "o",
      repoName := "r", installationId := 99 }
    (by decide)).1

/-- C1: a fully successful dispatch — every issued call succeeded and
a mutating call was made — posts exactly one confirmation comment and
schedules exactly two cleanup jobs, for the triggering comment and for
the confirmation comment, each with a 60000 ms delay; this holds for
the maintainer handler and the contributor handler alike. -/
theorem successful_dispatch_cleanups (menv : MaintainerEnv)
    (cenv : ContributorEnv) (ev : CommentEvent) :
    (menv.classifySucceeds = true → menv.postSucceeds = true →
      (∃ e ∈ handleMaintainerCommand menv ev, isMutatingCall e = true) →
      postCount (handleMaintainerCommand menv ev) = 1 ∧
      cleanupsOf (handleMaintainerCommand menv ev) =
        [(ev.commentId, 60000), (menv.confirmationId, 60000)]) ∧
    (cenv.feedbackSucceeds = true → cenv.logSucceeds = true →
      cenv.postSucceeds = true →
      (∃ e ∈ handleContributorFeedback cenv ev, isMutatingCall e = true) →
      postCount (handleContributorFeedback cenv ev) = 1 ∧
      cleanupsOf (handleContributorFeedback cenv ev) =
        [(ev.commentId, 60000), (cenv.confirmationId, 60000)]) := by
  constructor
  · intro hc hp hex
    rcases maintainer_cases menv ev with hnil | ⟨_, _, htr⟩
    · obtain ⟨e, he, _⟩ := hex
      rw [hnil] at he
      exact absurd he (List.not_mem_nil _)
    · rw [htr]
      constructor
      · simp [maintainerDispatch, hc, hp, postCount, isCommentPost]
      · simp [maintainerDispatch, hc, hp, cleanupsOf]
  · intro hf hl hp hex
    rcases contributor_cases cenv ev with hnil | ⟨pr, _, _, _, _, _, htr⟩
    · obtain ⟨e, he, _⟩ := hex
      rw [hnil] at he
      exact absurd he (List.not_mem_nil _)
    · rw [htr]
      constructor
      · simp [contributorDispatch, hf, hl, hp, postCount, isCommentPost]
      · simp [contributorDispatch, hf, hl, hp, cleanupsOf]

/-- C1, witness: a successful maintainer dispatch on
`/reposignal difficulty 3` and a successful contributor dispatch on
`/reposignal rate difficulty 4`, each with one confirmation and two
60000 ms cleanup jobs for the command and the confirmation. -/
theorem successful_dispatch_cleanups_witness :
    (postCount (handleMaintainerCommand
        { permissionResult := some "write", classifySucceeds := true,
          postSucceeds := true, confirmationId := 500 }
        { body := "/reposignal difficulty 3", commentId := 42,
          issueNumber := 7, issueId := 70, repoId := 10, senderId := 5,
          senderLogin := "alice", ownerLogin := "o", repoName := "r",
          installationId := 99 }) = 1 ∧
      cleanupsOf (handleMaintainerCommand
        { permissionResult := some "write", classifySucceeds := true,
          postSucceeds := true, confirmationId := 500 }
        { body := "/reposignal difficulty 3", commentId := 42,
          issueNumber := 7, issueId := 70, repoId := 10, senderId := 5,
          senderLogin := "alice", ownerLogin := "o", repoName := "r",
          installationId := 99 }) = [(42, 60000), (500, 60000)]) ∧
    (postCount (handleContributorFeedback
        { prFetch := some { id := 77, merged := true, authorId := some 5 },
          feedbackSucceeds := true, logSucceeds := true,
          postSucceeds := true, confirmationId := 900 }
        { body := "/reposignal rate difficulty 4", commentId := 21,
          issueNumber := 7, issueId := 70, repoId := 10, senderId := 5,
          senderLogin := "alice", ownerLogin := "o", repoName := "r",
          installationId := 99 }) = 1 ∧
      cleanupsOf (handleContributorFeedback
        { prFetch := some { id := 77, merged := true, authorId := some 5 },
          feedbackSucceeds := true, logSucceeds := true,
          postSucceeds := true, confirmationId := 900 }
        { body := "/reposignal rate difficulty 4", commentId := 21,
          issueNumber := 7, issueId := 70, repoId := 10, senderId := 5,
          senderLogin := "alice", ownerLogin := "o", repoName := "r",
          installationId := 99 }) = [(21, 60000), (900, 60000)]) :=
  ⟨(successful_dispatch_cleanups
      { permissionResult := some "write", classifySucceeds := true,
        postSucceeds := true, confirmationId := 500 }
      { prFetch := some { id := 77, merged := true, authorId := some 5 },
        feedbackSucceeds := true, logSucceeds := true, postSucceeds := true,
        confirmationId := 900 }
      { body := "/reposignal difficulty 3", commentId := 42,
        issueNumber := 7, issueId := 70, repoId := 10, senderId := 5,
        senderLogin := "alice", ownerLogin := "o", repoName := "r",
        installationId := 99 }).1 rfl rfl (by decide),
   (successful_dispatch_cleanups
      { permissionResult := some "write", classifySucceeds := true,
        postSucceeds := true, confirmationId := 500 }
      { prFetch := some { id := 77, merged := true, authorId := some 5 },
        feedbackSucceeds := true, logSucceeds := true, postSucceeds := true,
        confirmationId := 900 }
      { body := "/reposignal rate difficulty 4", commentId := 21,
        issueNumber := 7, issueId := 70, repoId := 10, senderId := 5,
        senderLogin := "alice", ownerLogin := "o", repoName := "r",
        installationId := 99 }).2 rfl rfl rfl (by decide)⟩

/-- C5: along both dispatch paths the three side-effect kinds always
appear in the order mutating call, confirmation post, cleanup
scheduling (the stages of the dispatch effects form a nondecreasing
sequence in every possible trace); and when the mutating call throws,
no confirmation is posted and no cleanup job is scheduled — the
thread and the queue are left untouched. -/
theorem dispatch_order_and_abort (menv : MaintainerEnv)
    (cenv : ContributorEnv) (ev : CommentEvent) :
    (menv.classifySucceeds = false →
      postCount (handleMaintainerCommand menv ev) = 0 ∧
      cleanupsOf (handleMaintainerCommand menv ev) = []) ∧
    (cenv.feedbackSucceeds = false →
      postCount (handleContributorFeedback cenv ev) = 0 ∧
      cleanupsOf (handleContributorFeedback cenv ev) = []) ∧
    List.Sorted (· ≤ ·)
      (((handleMaintainerCommand menv ev).filter dispatchKind).map
        effectStage) ∧
    List.Sorted (· ≤ ·)
      (((handleContributorFeedback cenv ev).filter dispatchKind).map
        effectStage) := by
  refine ⟨?_, ?_, ?_, ?_⟩
  · intro hc
    rcases maintainer_cases menv ev with hnil | ⟨_, _, htr⟩
    · simp [hnil, postCount, cleanupsOf]
    · rw [htr]
      constructor
      · simp [maintainerDispatch, hc, postCount, isCommentPost]
      · simp [maintainerDispatch, hc, cleanupsOf]
  · intro hf
    rcases contributor_cases cenv ev with hnil | ⟨pr, _, _, _, _, _, htr⟩
    · simp [hnil, postCount, cleanupsOf]
    · rw [htr]
      constructor
      · simp [contributorDispatch, hf, postCount, isCommentPost]
      · simp [contributorDispatch, hf, cleanupsOf]
  · rcases maintainer_cases menv ev with hnil | ⟨_, _, htr⟩
    · simp [hnil]
    · rw [htr]
      cases hc : menv.classifySucceeds <;> cases hp : menv.postSucceeds <;>
        simp [maintainerDispatch, hc, hp, dispatchKind, isMutatingCall,
          isCommentPost, isCleanupSched, effectStage, List.sorted_cons]
  · rcases contributor_cases cenv ev with hnil | ⟨pr, _, _, _, _, _, htr⟩
    · simp [hnil]
    · rw [htr]
      cases hf : cenv.feedbackSucceeds <;> cases hl : cenv.logSucceeds <;>
        cases hp : cenv.postSucceeds <;>
        simp [contributorDispatch, hf, hl, hp, dispatchKind, isMutatingCall,
          isCommentPost, isCleanupSched, effectStage, List.sorted_cons]

/-- C5, witness: when the classify call (resp. the feedback call)
throws, the dispatch trace posts nothing and schedules nothing. -/
theorem dispatch_order_and_abort_witness :
    (postCount (handleMaintainerCommand
        { permissionResult := some "write", classifySucceeds := false,
          postSucceeds := true, confirmationId := 500 }
        { body := "/reposignal difficulty 3", commentId := 42,
          issueNumber := 7, issueId := 70, repoId := 10, senderId := 5,
          senderLogin := "alice", ownerLogin := "o", repoName := "r",
          installationId := 99 }) = 0 ∧
      cleanupsOf (handleMaintainerCommand
        { permissionResult := some "write", classifySucceeds := false,
          postSucceeds := true, confirmationId := 500 }
        { body := "/reposignal difficulty 3", commentId := 42,
          issueNumber := 7, issueId := 70, repoId := 10, senderId := 5,
          senderLogin := "alice", ownerLogin := "o", repoName := "r",
          installationId := 99 }) = []) ∧
    (postCount (handleContributorFeedback
        { prFetch := some { id := 77, merged := true, authorId := some 5 },
          feedbackSucceeds := false, logSucceeds := true,
          postSucceeds := true, confirmationId := 900 }
        { body := "/reposignal rate difficulty 4", commentId := 21,
          issueNumber := 7, issueId := 70, repoId := 10, senderId := 5,
          senderLogin := "alice", ownerLogin := "o", repoName := "r",
          installationId := 99 }) = 0 ∧
      cleanupsOf (handleContributorFeedback
        { prFetch := some { id := 77, merged := true, authorId := some 5 },
          feedbackSucceeds := false, logSucceeds := true,
          postSucceeds := true, confirmationId := 900 }
        { body := "/reposignal rate difficulty 4", commentId := 21,
          issueNumber := 7, issueId := 70, repoId := 10, senderId := 5,
          senderLogin := "alice", ownerLogin := "o", repoName := "r",
          installationId := 99 }) = []) :=
  ⟨(dispatch_order_and_abort
      { permissionResult := some "write", classifySucceeds := false,
        postSucceeds := true, confirmationId := 500 }
      { prFetch := some { id := 77, merged := true, authorId := some 5 },
        feedbackSucceeds := false, logSucceeds := true, postSucceeds := true,
        confirmationId := 900 }
      { body := "/reposignal difficulty 3", commentId := 42,
        issueNumber := 7, issueId := 70, repoId := 10, senderId := 5,
        senderLogin := "alice", ownerLogin := "o", repoName := "r",
        installationId := 99 }).1 rfl,
   (dispatch_order_and_abort
      { permissionResult := some "write", classifySucceeds := false,
        postSucceeds := true, confirmationId := 500 }
      { prFetch := some { id := 77, merged := true, authorId := some 5 },
        feedbackSucceeds := false, logSucceeds := true, postSucceeds := true,
        confirmationId := 900 }
      { body := "/reposignal rate difficulty 4", commentId := 21,
        issueNumber := 7, issueId := 70, repoId := 10, senderId := 5,
        senderLogin := "alice", ownerLogin := "o", repoName := "r",
        installationId := 99 }).2.1 rfl⟩

example : parseDifficultyCommand "/reposignal difficulty 3" = some 3 := by decide
example : parseDifficultyCommand "/reposignal difficulty 12" = some 1 := by decide
example : parseDifficultyCommand "/reposignal difficulty 6" = none := by decide
example : parseDifficultyCommand "hello /REPOSIGNAL  Difficulty 4 tail" = some 4 := by decide
example : parseTypeCommand "/reposignal type bug" = some .bug := by decide
example : parseTypeCommand "/reposignal type user" = none := by decide
example : isHideCommand "please /reposignal hide now" = true := by decide
example : isHideCommand "/reposignal difficulty 2" = false := by decide
example : parseDifficultyRating "/reposignal rate difficulty 4" = some 4 := by decide
example : parseResponsivenessRating "/reposignal rate responsiveness 2" = some 2 := by decide
example : jsIncludes "/reposignal rate difficulty 4" "/reposignal rate" = true := by decide
example : jsIncludes "/reposignal difficulty 4" "/reposignal rate" = false := by decide

end Reposignal
